import Mathlib

/-!
# Verification of the RAG retrieval / selection / citation pipeline

A shallow embedding of the core pipeline of the repository
(`app/services/rag_service.py`, `app/services/chroma_repository.py`,
`app/services/exceptions.py`, `app/core/config.py`, `app/models/schemas.py`)
together with proofs of the spec's testable properties.

Modelling conventions:
* Python `float` values (scores, distances) are modelled by `ℚ`; the claims
  under scrutiny only use comparisons, `max`/`min` and the affine map
  `1 - d/2`, whose qualitative behaviour on non-NaN floats matches `ℚ`.
* Python `str` is `String`; `len` is `String.length` (both count code points).
* Python exceptions are modelled with `Except`: the repository search is a
  function of the outcome of the underlying store query.
* Python's stable `list.sort(key=…, reverse=True)` is modelled by
  `List.insertionSort` with the decidable total relation
  "left score ≥ right score", which is a stable descending sort and hence
  extensionally equal to CPython's Timsort with that key.
-/

namespace Rag

open List

/-! ## Data model (`app/models/schemas.py`, `app/core/config.py`) -/

/-- `InternalChunk` from `app/models/schemas.py`: internal representation of a
retrieved chunk. Metadata is modelled as an association list of string keys to
string values (only the `source` / `file_name` keys are ever read). -/
structure InternalChunk where
  id : String
  text : String
  score : ℚ
  metadata : List (String × String)
deriving DecidableEq, Repr

/-- `SourceChunk` from `app/models/schemas.py`: API-facing chunk with citation
information. -/
structure SourceChunk where
  id : String
  citationId : ℕ
  score : ℚ
  source : Option String
  rank : ℕ
  text : String
  metadata : List (String × String)
deriving DecidableEq, Repr

/-- `QueryRequest` from `app/models/schemas.py`. `max_sources` is optional
(`None` when omitted; the pydantic schema enforces `ge=1` when present). -/
structure QueryRequest where
  question : String
  maxSources : Option ℕ
deriving DecidableEq, Repr

/-- `QueryResponse` from `app/models/schemas.py`. -/
structure QueryResponse where
  answer : String
  sources : List SourceChunk
deriving DecidableEq, Repr

/-- The retrieval-tuning fields of `Settings` from `app/core/config.py`. -/
structure Settings where
  retrievalDefaultTopK : ℕ
  retrievalMaxK : ℕ
  retrievalMinScore : ℚ
  maxContextCharacters : ℕ
deriving DecidableEq, Repr

/-- The default field values of `Settings` from `app/core/config.py`
(top-K 8, max-K 12, min score 0.3, context budget 6000). -/
def defaultSettings : Settings :=
  { retrievalDefaultTopK := 8
    retrievalMaxK := 12
    retrievalMinScore := 3/10
    maxContextCharacters := 6000 }

/-- `ChromaUnavailableError` from `app/services/exceptions.py`. -/
structure ChromaUnavailableError where
  message : String
deriving DecidableEq, Repr

/-! ## Python-semantics helpers -/

/-- Truthiness of an optional string in Python: `None` and `""` are falsy. -/
def truthy : Option String → Bool
  | none => false
  | some s => !s.isEmpty

/-- Python's `a or b` on optional strings: `a` when truthy, else `b`. -/
def pyOr (a b : Option String) : Option String :=
  if truthy a then a else b

/-- Python's `a or d` where `a` is an optional positive int and `d` a default:
`None` and `0` are falsy and fall through to the default. -/
def pyOrNat (a : Option ℕ) (d : ℕ) : ℕ :=
  match a with
  | none => d
  | some n => if n = 0 then d else n

/-- Python `dict.get(k)` on the association-list model of a metadata dict. -/
def lookupMeta (m : List (String × String)) (k : String) : Option String :=
  (m.find? (fun p => p.1 == k)).map (fun p => p.2)

/-- Map `f` over a list together with 0-based positions starting at `i`:
the model of Python's `enumerate(l, start=i)` driving a comprehension. -/
def mapFrom (f : ℕ → α → β) : ℕ → List α → List β
  | _, [] => []
  | i, a :: l => f i a :: mapFrom f (i + 1) l

/-- The decimal digit character for `d < 10` (model of Python's `str(int)`
digit rendering). -/
def digitChar : ℕ → Char
  | 0 => '0' | 1 => '1' | 2 => '2' | 3 => '3' | 4 => '4'
  | 5 => '5' | 6 => '6' | 7 => '7' | 8 => '8' | _ => '9'

/-- Decimal digit list of a natural number, most significant first: the model
of Python's `str(idx)` / f-string rendering of an int. -/
def natReprChars (n : ℕ) : List Char :=
  if _h : n < 10 then [digitChar n]
  else natReprChars (n / 10) ++ [digitChar (n % 10)]
  decreasing_by exact Nat.div_lt_self (by omega) (by omega)

/-- Decimal string of a natural number (Python `str(idx)`). -/
def natRepr (n : ℕ) : String :=
  ⟨natReprChars n⟩

/-- Python `"\n".join(lines)`. -/
def joinNl : List String → String
  | [] => ""
  | [x] => x
  | x :: y :: l => x ++ "\n" ++ joinNl (y :: l)

/-- The word list of a string, splitting on whitespace and dropping empty
pieces (the collapse step of Python's `textwrap.shorten`). -/
def pyWords (s : String) : List String :=
  (s.split Char.isWhitespace).filter (fun w => !w.isEmpty)

/-- Greedily keep words while the running text plus the `" [...]"` placeholder
still fits in `width` (the truncation step of Python's `textwrap.shorten`). -/
def fitWords (width : ℕ) (acc : String) : List String → String
  | [] => acc ++ " [...]"
  | w :: ws =>
    let acc' := if acc.isEmpty then w else acc ++ " " ++ w
    if acc'.length + " [...]".length ≤ width then fitWords width acc' ws
    else acc ++ " [...]"

/-- Model of Python's `textwrap.shorten(s, width)`: collapse whitespace runs to
single spaces; if the collapsed text fits in `width` return it, else drop words
from the end and append the `" [...]"` placeholder. -/
def shorten (s : String) (width : ℕ) : String :=
  let ws := pyWords s
  let collapsed := " ".intercalate ws
  if collapsed.length ≤ width then collapsed
  else fitWords width "" ws

/-! ## Similarity scoring and repository search
(`app/services/chroma_repository.py`) -/

/-- The similarity normalization of `ChromaRepository.similarity_search`
(line 127): `max(0.0, min(1.0, 1.0 - distance / 2.0))`. -/
def similarityScore (d : ℚ) : ℚ :=
  max 0 (min 1 (1 - d / 2))

/-- Modelled from the spec's words (§3): `clamp(x, lo, hi)`, the value `x`
clamped into the interval `[lo, hi]`. -/
def specClamp (x lo hi : ℚ) : ℚ :=
  min hi (max lo x)

/-- The per-query lists extracted from a raw Chroma query response in
`similarity_search`: `documents`, `metadatas`, `distances`, `ids` (the last is
`Option`al because the code synthesizes ids when the response has none;
document entries are `Option`al because a document may be `None`). -/
structure RawQueryResult where
  documents : List (Option String)
  metadatas : List (List (String × String))
  distances : List ℚ
  ids : Option (List String)
deriving DecidableEq, Repr

/-- The candidate-construction loop of `ChromaRepository.similarity_search`
(lines 111–137): per index, missing metadata becomes `{}`, a missing distance
becomes `0.0`, a missing id becomes `str(idx)`, a `None` document becomes `""`,
and the distance is normalized with `similarityScore`. -/
def similaritySearchChunks (raw : RawQueryResult) : List InternalChunk :=
  let ids := match raw.ids with
    | some l => l
    | none => mapFrom (fun i _ => natRepr i) 0 raw.documents
  mapFrom (fun idx doc =>
    { id := ids.getD idx (natRepr idx)
      text := doc.getD ""
      score := similarityScore (raw.distances.getD idx 0)
      metadata := raw.metadatas.getD idx [] }) 0 raw.documents

/-- The request-size clamp of `similarity_search` (line 91):
`n_results = max(1, min(n_results, settings.retrieval_max_k))`. -/
def effectiveNResults (st : Settings) (n : ℕ) : ℕ :=
  max 1 (min n st.retrievalMaxK)

/-- `ChromaRepository.similarity_search`, as a function of the underlying
store (`provider n` is the outcome of `collection.query` asked for `n`
results): the request size is clamped, a failing query raises
`ChromaUnavailableError("ChromaDB query failed")`, and a successful response
is converted to scored chunks. -/
def similaritySearch (st : Settings)
    (provider : ℕ → Except String RawQueryResult) (n : ℕ) :
    Except ChromaUnavailableError (List InternalChunk) :=
  match provider (effectiveNResults st n) with
  | .error _ => .error ⟨"ChromaDB query failed"⟩
  | .ok raw => .ok (similaritySearchChunks raw)

/-! ## Chunk selection (`RAGService._select_chunks`) -/

/-- The score filter of `_select_chunks` (line 97):
`[c for c in chunks if c.score >= min_score]`. -/
def filteredChunks (minScore : ℚ) (chunks : List InternalChunk) :
    List InternalChunk :=
  chunks.filter (fun c => decide (minScore ≤ c.score))

/-- The comparison underlying `filtered.sort(key=lambda c: c.score,
reverse=True)`: `a` may come before `b` iff `a`'s score is ≥ `b`'s. -/
def scoreGE (a b : InternalChunk) : Prop :=
  b.score ≤ a.score

instance : DecidableRel scoreGE :=
  fun a b => inferInstanceAs (Decidable (b.score ≤ a.score))

instance : IsTotal InternalChunk scoreGE :=
  ⟨fun a b => le_total b.score a.score⟩

instance : IsTrans InternalChunk scoreGE :=
  ⟨fun _ _ _ hab hbc => le_trans hbc hab⟩

/-- `filtered.sort(key=lambda c: c.score, reverse=True)` (line 98): a stable
sort by similarity descending. -/
def sortByScoreDesc (chunks : List InternalChunk) : List InternalChunk :=
  chunks.insertionSort scoreGE

/-- The greedy acceptance loop of `_select_chunks` (lines 109–125): stop once
`maxCount` chunks are accepted; skip (and keep scanning past) any chunk whose
text would push the running character total over `maxChars`; otherwise accept
it and charge its length to the budget. -/
def greedySelect (maxCount maxChars : ℕ) :
    List InternalChunk → ℕ → ℕ → List InternalChunk
  | [], _, _ => []
  | c :: rest, count, total =>
    if maxCount ≤ count then []
    else if maxChars < total + c.text.length then
      greedySelect maxCount maxChars rest count total
    else
      c :: greedySelect maxCount maxChars rest (count + 1)
            (total + c.text.length)

/-- `RAGService._select_chunks` (lines 82–132): filter by minimum score, sort
by descending similarity (stable), then greedily accept under the count cap
and the character budget. -/
def selectChunks (st : Settings) (chunks : List InternalChunk)
    (maxSources : ℕ) : List InternalChunk :=
  greedySelect maxSources st.maxContextCharacters
    (sortByScoreDesc (filteredChunks st.retrievalMinScore chunks)) 0 0

/-- Total character count of the selected chunks' texts. -/
def sumLen (chunks : List InternalChunk) : ℕ :=
  (chunks.map (fun c => c.text.length)).sum

/-! ## Answer composition (`RAGService._generate_answer`,
`RAGService._format_sources`) -/

/-- The `source_name` extraction used in both `_generate_answer` (line 153)
and `_format_sources` (line 204):
`chunk.metadata.get("source") or chunk.metadata.get("file_name")`. -/
def sourceNameOf (c : InternalChunk) : Option String :=
  pyOr (lookupMeta c.metadata "source") (lookupMeta c.metadata "file_name")

/-- One line of the Sources section built by `_generate_answer`
(lines 151–157): `[idx]`, an optional `(source_name)` tag, and the shortened
single-line snippet of the chunk text. -/
def contextSummaryLine (idx : ℕ) (c : InternalChunk) : String :=
  let snippet := shorten (c.text.replace "\n" " ") 260
  let pfx := "[" ++ natRepr idx ++ "]"
  let pfx2 := if truthy (sourceNameOf c) then
      pfx ++ " (" ++ (sourceNameOf c).getD "" ++ ")"
    else pfx
  pfx2 ++ " " ++ snippet

/-- The `summary_lines` list of `_generate_answer` (lines 150–157), one line
per chunk with 1-based indices. -/
def contextSummaryLines (chunks : List InternalChunk) : List String :=
  mapFrom (fun i c => contextSummaryLine i c) 1 chunks

/-- The fixed no-knowledge answer of `answer_question` (lines 61–65), returned
when the provider yields zero candidates. -/
def noKnowledgeAnswer : String :=
  "I could not find any relevant content in the knowledge base " ++
  "to answer this question. If the topic is important, please " ++
  "consider adding documentation about it to the RAG corpus."

/-- The fixed narrative paragraph of `_generate_answer` (lines 170–179). -/
def narrativeParagraph : String :=
  "The relevant documentation describes how the internal RAG-powered " ++
  "assistant is containerized with a FastAPI application talking to " ++
  "a ChromaDB vector store over HTTP. It highlights how assessment " ++
  "design content, Docker Compose configuration (including persistent " ++
  "volumes under /data), and RAG settings are stored as chunks in the " ++
  "vector database. Retrieval is tuned to pull multiple high-scoring " ++
  "chunks so complex questions can be answered using a broader span " ++
  "of context while still filtering out irrelevant noise."

/-- The fixed citation-guidance paragraph of `_generate_answer`
(lines 182–187). -/
def citationGuidance : String :=
  "Each numbered reference below corresponds to a specific chunk that " ++
  "was retrieved from the knowledge base and used as context. " ++
  "You can use these citations to audit or refine the underlying " ++
  "documentation."

/-- The `answer_sections` list of `_generate_answer` (lines 161–191). -/
def answerSections (question : String) (chunks : List InternalChunk) :
    List String :=
  [ "Question: " ++ question
  , ""
  , "Based on the retrieved knowledge base content, here is a synthesized answer:"
  , ""
  , narrativeParagraph
  , ""
  , citationGuidance
  , ""
  , "Sources:"
  , joinNl (contextSummaryLines chunks) ]

/-- `RAGService._generate_answer` (lines 134–193):
`"\n".join(answer_sections)`. -/
def generateAnswer (question : String) (chunks : List InternalChunk) :
    String :=
  joinNl (answerSections question chunks)

/-- `RAGService._format_sources` (lines 195–217): each chunk becomes a
`SourceChunk` whose `citation_id` and `rank` are its 1-based position. -/
def formatSources (chunks : List InternalChunk) : List SourceChunk :=
  mapFrom (fun i c =>
    { id := c.id
      citationId := i
      score := c.score
      source := sourceNameOf c
      rank := i
      text := c.text
      metadata := c.metadata }) 1 chunks

/-! ## Orchestration (`RAGService.answer_question`) -/

/-- The candidate-pool size requested from the repository by
`answer_question` (line 57): `max(max_sources, retrieval_default_top_k)`,
where `max_sources = payload.max_sources or retrieval_default_top_k`. -/
def requestedNResults (st : Settings) (payload : QueryRequest) : ℕ :=
  max (pyOrNat payload.maxSources st.retrievalDefaultTopK)
    st.retrievalDefaultTopK

/-- `RAGService.answer_question` (lines 42–77), as a function of the
underlying store: strip the question, resolve `max_sources`, run the
similarity search (whose unavailability error propagates), short-circuit to
the no-knowledge answer on zero candidates, otherwise select, compose and
format. -/
def answerQuestion (st : Settings) (payload : QueryRequest)
    (provider : ℕ → Except String RawQueryResult) :
    Except ChromaUnavailableError QueryResponse :=
  let question := payload.question.trim
  let maxSources := pyOrNat payload.maxSources st.retrievalDefaultTopK
  match similaritySearch st provider (requestedNResults st payload) with
  | .error e => .error e
  | .ok candidates =>
    if candidates.isEmpty then
      .ok { answer := noKnowledgeAnswer, sources := [] }
    else
      let selected := selectChunks st candidates maxSources
      .ok { answer := generateAnswer question selected
            sources := formatSources selected }

/-! ## Citation-id extraction from a rendered Sources line -/

/-- The numeric value of a decimal digit character. -/
def digitVal (c : Char) : ℕ :=
  c.toNat - '0'.toNat

/-- The natural number denoted by a list of decimal digit characters. -/
def digitsToNat (ds : List Char) : ℕ :=
  ds.foldl (fun n c => 10 * n + digitVal c) 0

/-- The citation id printed at the head of a Sources-section line: a leading
`[`, a non-empty run of decimal digits, and a closing `]`; `none` when the
line does not start with a bracketed number. -/
def lineCitationId (line : String) : Option ℕ :=
  match line.data with
  | '[' :: rest =>
    let ds := rest.takeWhile Char.isDigit
    match rest.dropWhile Char.isDigit with
    | ']' :: _ => if ds.isEmpty then none else some (digitsToNat ds)
    | _ => none
  | _ => none

/-! ## Lemmas about the greedy selection loop -/

@[simp]
lemma sumLen_nil : sumLen [] = 0 := rfl

@[simp]
lemma sumLen_cons (c : InternalChunk) (l : List InternalChunk) :
    sumLen (c :: l) = c.text.length + sumLen l := by
  simp [sumLen]

lemma greedySelect_length (mc mx : ℕ) :
    ∀ (l : List InternalChunk) (count total : ℕ),
      count + (greedySelect mc mx l count total).length ≤ max mc count
  | [], count, _ => by
    simp only [greedySelect, List.length_nil]
    omega
  | c :: rest, count, total => by
    rcases Nat.lt_or_ge count mc with h1 | h1
    · rcases Nat.lt_or_ge mx (total + c.text.length) with h2 | h2
      · have ih := greedySelect_length mc mx rest count total
        simp only [greedySelect, if_neg (Nat.not_le.mpr h1), if_pos h2]
        omega
      · have ih := greedySelect_length mc mx rest (count + 1)
          (total + c.text.length)
        simp only [greedySelect, if_neg (Nat.not_le.mpr h1),
          if_neg (Nat.not_lt.mpr h2), List.length_cons]
        omega
    · simp only [greedySelect, if_pos h1, List.length_nil]
      omega

lemma greedySelect_sum (mc mx : ℕ) :
    ∀ (l : List InternalChunk) (count total : ℕ), total ≤ mx →
      total + sumLen (greedySelect mc mx l count total) ≤ mx
  | [], _, total, h => by
    simp only [greedySelect, sumLen_nil]
    omega
  | c :: rest, count, total, h => by
    rcases Nat.lt_or_ge count mc with h1 | h1
    · rcases Nat.lt_or_ge mx (total + c.text.length) with h2 | h2
      · have ih := greedySelect_sum mc mx rest count total h
        simp only [greedySelect, if_neg (Nat.not_le.mpr h1), if_pos h2]
        omega
      · have ih := greedySelect_sum mc mx rest (count + 1)
          (total + c.text.length) (by omega)
        simp only [greedySelect, if_neg (Nat.not_le.mpr h1),
          if_neg (Nat.not_lt.mpr h2), sumLen_cons]
        omega
    · simp only [greedySelect, if_pos h1, sumLen_nil]
      omega

lemma greedySelect_sublist (mc mx : ℕ) :
    ∀ (l : List InternalChunk) (count total : ℕ),
      greedySelect mc mx l count total <+ l
  | [], _, _ => by
    simp [greedySelect]
  | c :: rest, count, total => by
    rcases Nat.lt_or_ge count mc with h1 | h1
    · rcases Nat.lt_or_ge mx (total + c.text.length) with h2 | h2
      · simp only [greedySelect, if_neg (Nat.not_le.mpr h1), if_pos h2]
        exact (greedySelect_sublist mc mx rest count total).cons c
      · simp only [greedySelect, if_neg (Nat.not_le.mpr h1),
          if_neg (Nat.not_lt.mpr h2)]
        exact (greedySelect_sublist mc mx rest (count + 1)
          (total + c.text.length)).cons₂ c
    · simp only [greedySelect, if_pos h1]
      exact List.nil_sublist _

/-- C1: The Chunk Selector walks the score-sorted list greedily: its output
never exceeds the `maxCount` cap, the total character count of its output
never exceeds the character budget, and a chunk that would overflow the
budget is skipped with scanning continuing on the rest of the list (so a
later, shorter chunk can still be accepted). -/
theorem selector_budget_count_and_skip (st : Settings)
    (chunks : List InternalChunk) (maxSources : ℕ) :
    (selectChunks st chunks maxSources).length ≤ maxSources ∧
    sumLen (selectChunks st chunks maxSources) ≤ st.maxContextCharacters ∧
    (∀ (c : InternalChunk) (rest : List InternalChunk) (count total : ℕ),
      count < maxSources →
      st.maxContextCharacters < total + c.text.length →
      greedySelect maxSources st.maxContextCharacters (c :: rest) count total =
        greedySelect maxSources st.maxContextCharacters rest count total) := by
  refine ⟨?_, ?_, ?_⟩
  · have h := greedySelect_length maxSources st.maxContextCharacters
      (sortByScoreDesc (filteredChunks st.retrievalMinScore chunks)) 0 0
    simp only [selectChunks]
    omega
  · have h := greedySelect_sum maxSources st.maxContextCharacters
      (sortByScoreDesc (filteredChunks st.retrievalMinScore chunks)) 0 0
      (Nat.zero_le _)
    simpa [selectChunks] using h
  · intro c rest count total hcount hover
    simp [greedySelect, Nat.not_le.mpr hcount, hover]

/-- Witness for C1, at the spec's Scenario B shape: with budget 10 the
50-character chunk is skipped but scanning continues, and the later
5-character chunk is accepted. -/
theorem selector_budget_count_and_skip_witness :
    greedySelect 5 10
        [⟨"a", String.mk (List.replicate 50 'x'), 1, []⟩,
         ⟨"b", "bbbbb", 1, []⟩] 0 0 =
      greedySelect 5 10 [⟨"b", "bbbbb", 1, []⟩] 0 0 ∧
    greedySelect 5 10 [⟨"b", "bbbbb", 1, []⟩] 0 0 =
      [⟨"b", "bbbbb", 1, []⟩] :=
  ⟨(selector_budget_count_and_skip ⟨8, 12, 0, 10⟩ [] 5).2.2
      ⟨"a", String.mk (List.replicate 50 'x'), 1, []⟩
      [⟨"b", "bbbbb", 1, []⟩] 0 0 (by decide) (by decide),
    by decide⟩

/-! ## Membership and ordering facts about the Selector -/

lemma mem_selectChunks {st : Settings} {chunks : List InternalChunk}
    {ms : ℕ} {c : InternalChunk} (hc : c ∈ selectChunks st chunks ms) :
    c ∈ chunks ∧ st.retrievalMinScore ≤ c.score := by
  have h1 : c ∈ sortByScoreDesc (filteredChunks st.retrievalMinScore chunks) :=
    (greedySelect_sublist ms st.maxContextCharacters _ 0 0).subset hc
  have h2 : c ∈ filteredChunks st.retrievalMinScore chunks :=
    (mem_insertionSort scoreGE).mp h1
  have h3 := List.mem_filter.mp h2
  exact ⟨h3.1, of_decide_eq_true h3.2⟩

lemma filter_sortByScoreDesc (l : List InternalChunk)
    (p : InternalChunk → Bool)
    (hp : ∀ a b, p a = true → p b = true → scoreGE a b) :
    (sortByScoreDesc l).filter p = l.filter p := by
  have hpl : (l.filter p).Pairwise scoreGE := by
    refine pairwise_of_forall_mem_list ?_
    intro a ha b hb
    exact hp a b (List.mem_filter.mp ha).2 (List.mem_filter.mp hb).2
  have h1 : l.filter p <+ sortByScoreDesc l :=
    sublist_insertionSort hpl (filter_sublist l)
  have h2 : l.filter p <+ (sortByScoreDesc l).filter p := by
    have := h1.filter p
    simpa [List.filter_filter] using this
  have h3 : ((sortByScoreDesc l).filter p).length = (l.filter p).length :=
    ((perm_insertionSort scoreGE l).filter p).length_eq
  exact (h2.eq_of_length h3.symm).symm

/-- C7: the Selector's output contains no chunk with similarity strictly
below `minScore`; a chunk whose similarity equals `minScore` exactly passes
the score filter; and every output chunk is an element of the input list. -/
theorem selector_filter_correct (st : Settings)
    (chunks : List InternalChunk) (maxSources : ℕ) :
    (∀ c ∈ selectChunks st chunks maxSources,
      st.retrievalMinScore ≤ c.score) ∧
    (∀ c ∈ chunks, c.score = st.retrievalMinScore →
      c ∈ filteredChunks st.retrievalMinScore chunks) ∧
    (∀ c ∈ selectChunks st chunks maxSources, c ∈ chunks) := by
  refine ⟨fun c hc => (mem_selectChunks hc).2, ?_,
    fun c hc => (mem_selectChunks hc).1⟩
  intro c hc hsc
  exact List.mem_filter.mpr ⟨hc, by simp [hsc]⟩

/-- Witness for C7 at a concrete one-chunk input. -/
theorem selector_filter_correct_witness :
    (⟨8, 12, 0, 100⟩ : Settings).retrievalMinScore ≤
      (⟨"a", "x", 1, []⟩ : InternalChunk).score :=
  (selector_filter_correct ⟨8, 12, 0, 100⟩ [⟨"a", "x", 1, []⟩] 5).1
    ⟨"a", "x", 1, []⟩ (by decide)

/-- C8: the Selector's output is sorted by similarity descending, and chunks
of any given similarity appear in the output as a subsequence of their
occurrences in the input, i.e. ties keep their original relative order
(the sort is stable). -/
theorem selector_sorted_and_stable (st : Settings)
    (chunks : List InternalChunk) (maxSources : ℕ) :
    Sorted scoreGE (selectChunks st chunks maxSources) ∧
    ∀ s : ℚ,
      (selectChunks st chunks maxSources).filter
          (fun c => decide (c.score = s)) <+
        chunks.filter (fun c => decide (c.score = s)) := by
  constructor
  · exact (sorted_insertionSort scoreGE _).sublist
      (greedySelect_sublist maxSources st.maxContextCharacters _ 0 0)
  · intro s
    have h1 := (greedySelect_sublist maxSources st.maxContextCharacters
      (sortByScoreDesc (filteredChunks st.retrievalMinScore chunks)) 0 0).filter
      (fun c => decide (c.score = s))
    rw [filter_sortByScoreDesc _ _ ?hp] at h1
    case hp =>
      intro a b ha hb
      have ha' := of_decide_eq_true ha
      have hb' := of_decide_eq_true hb
      simp only [scoreGE, ha', hb']
      exact le_refl s
    refine h1.trans ?_
    rw [filteredChunks, List.filter_filter]
    exact monotone_filter_right chunks
      (fun a h => ((Bool.and_eq_true _ _).mp h).1)

/-! ## The Similarity Scorer -/

/-- C3: for every raw distance `d` — negative and `> 2` included — the
computed similarity equals `clamp(1 - d/2, 0, 1)`, lies in `[0, 1]`, maps
`0` to `1` and `2` to `0`; being a total function of `d`, the computation
never fails. -/
theorem similarity_score_clamped (d : ℚ) :
    similarityScore d = specClamp (1 - d / 2) 0 1 ∧
    0 ≤ similarityScore d ∧ similarityScore d ≤ 1 ∧
    similarityScore 0 = 1 ∧ similarityScore 2 = 0 := by
  refine ⟨?_, le_max_left _ _, ?_, by norm_num [similarityScore],
    by norm_num [similarityScore]⟩
  · rw [similarityScore, specClamp, max_min_distrib_left]
    norm_num
  · exact max_le (by norm_num) (min_le_left _ _)

/-! ## The zero-character budget -/

/-- C5 counterexample: with `maxTotalChars = 0`, a chunk whose text is the
empty string is still accepted (`0 + 0 ≤ 0`), so the Selector output is not
empty even though the budget is zero. -/
theorem budget_zero_accepts_empty_text_chunk :
    selectChunks ⟨8, 12, 0, 0⟩ [⟨"a", "", 1, []⟩] 5 = [⟨"a", "", 1, []⟩] ∧
    selectChunks ⟨8, 12, 0, 0⟩ [⟨"a", "", 1, []⟩] 5 ≠ [] := by
  constructor <;> decide

/-- C5 amended: when `maxTotalChars` is 0 every chunk the Selector returns
has empty text, regardless of scores; in particular the output is empty
whenever every input chunk has non-empty text. -/
theorem budget_zero_output_empty_texts (st : Settings)
    (chunks : List InternalChunk) (maxSources : ℕ)
    (h : st.maxContextCharacters = 0) :
    (∀ c ∈ selectChunks st chunks maxSources, c.text.length = 0) ∧
    ((∀ c ∈ chunks, c.text.length ≠ 0) →
      selectChunks st chunks maxSources = []) := by
  have hsum := greedySelect_sum maxSources st.maxContextCharacters
    (sortByScoreDesc (filteredChunks st.retrievalMinScore chunks)) 0 0
    (Nat.zero_le _)
  have hzero : ∀ c ∈ selectChunks st chunks maxSources, c.text.length = 0 := by
    intro c hc
    have : sumLen (selectChunks st chunks maxSources) = 0 := by
      simp only [selectChunks]
      omega
    have := List.sum_eq_zero_iff.mp (by simpa [sumLen] using this)
    exact this _ (List.mem_map_of_mem _ hc)
  refine ⟨hzero, fun hne => ?_⟩
  cases hsel : selectChunks st chunks maxSources with
  | nil => rfl
  | cons c rest =>
    have hcmem : c ∈ selectChunks st chunks maxSources := by
      rw [hsel]; exact List.mem_cons_self c rest
    exact absurd (hzero c hcmem) (hne c (mem_selectChunks hcmem).1)

/-- Witness for C5 amended: one chunk with non-empty text and budget 0 gives
an empty selection. -/
theorem budget_zero_output_empty_texts_witness :
    selectChunks ⟨8, 12, 0, 0⟩ [⟨"a", "x", 1, []⟩] 5 = [] :=
  (budget_zero_output_empty_texts ⟨8, 12, 0, 0⟩ [⟨"a", "x", 1, []⟩] 5 rfl).2
    (by decide)

/-! ## Orchestrator request size and error propagation -/

/-- C6: the orchestrator's retrieval step asks the search layer for exactly
`max(maxSources, configuredDefaultTopK)` candidates — the response is
determined by the provider's behaviour at that single request size (after
the repository's `[1, retrievalMaxK]` clamp), the request is never below the
configured default, and `maxSources = 1` with default top-K 8 yields a
request for `max(1, 8) = 8` candidates. -/
theorem provider_request_count (st : Settings) (payload : QueryRequest)
    (p₁ p₂ : ℕ → Except String RawQueryResult)
    (h : p₁ (effectiveNResults st (requestedNResults st payload)) =
        p₂ (effectiveNResults st (requestedNResults st payload))) :
    answerQuestion st payload p₁ = answerQuestion st payload p₂ ∧
    st.retrievalDefaultTopK ≤ requestedNResults st payload ∧
    requestedNResults defaultSettings ⟨"q", some 1⟩ = 8 := by
  refine ⟨?_, le_max_right _ _, rfl⟩
  simp only [answerQuestion, similaritySearch, h]

/-- Witness for C6: two providers that agree at request size 8 (and nowhere
else) give the same response for `maxSources = 1` under the default top-K 8. -/
theorem provider_request_count_witness :
    answerQuestion defaultSettings ⟨"q", some 1⟩
        (fun _ => .ok ⟨[], [], [], none⟩) =
      answerQuestion defaultSettings ⟨"q", some 1⟩
        (fun n => if n = 8 then .ok ⟨[], [], [], none⟩ else .error "x") ∧
    defaultSettings.retrievalDefaultTopK ≤
      requestedNResults defaultSettings ⟨"q", some 1⟩ ∧
    requestedNResults defaultSettings ⟨"q", some 1⟩ = 8 :=
  provider_request_count defaultSettings ⟨"q", some 1⟩ _ _ rfl

/-- C9: a failing store query surfaces as the single typed
`ChromaUnavailableError`, propagated unchanged by the orchestrator with no
answer produced (the provider is consulted exactly once, with no retry); on
a successful query the rest of the pipeline is total and always produces a
response. -/
theorem provider_unavailable_propagates (st : Settings)
    (payload : QueryRequest) :
    (∀ e : String,
      answerQuestion st payload (fun _ => .error e) =
        .error ⟨"ChromaDB query failed"⟩) ∧
    (∀ raw : RawQueryResult,
      (answerQuestion st payload (fun _ => .ok raw)).isOk = true) := by
  constructor
  · intro e
    simp [answerQuestion, similaritySearch]
  · intro raw
    simp only [answerQuestion, similaritySearch]
    by_cases h : (similaritySearchChunks raw).isEmpty <;>
      simp [h, Except.isOk, Except.toBool]

/-! ## Scoring of candidates with a missing distance entry -/

lemma mapFrom_getElem? (f : ℕ → α → β) :
    ∀ (l : List α) (i k : ℕ), (mapFrom f i l)[k]? = l[k]?.map (f (i + k))
  | [], _, _ => by simp [mapFrom]
  | a :: l, i, 0 => by simp [mapFrom]
  | a :: l, i, k + 1 => by
    have ih := mapFrom_getElem? f l (i + 1) k
    simp only [mapFrom, List.getElem?_cons_succ]
    rw [show i + (k + 1) = (i + 1) + k by omega]
    exact ih

/-- C10: a returned document at position `idx` with no corresponding entry in
the distances list is assigned raw distance 0.0 and therefore similarity 1.0,
the maximum possible score. -/
theorem missing_distance_scores_one (raw : RawQueryResult) (idx : ℕ)
    (h1 : idx < raw.documents.length)
    (h2 : raw.distances.length ≤ idx) :
    (similaritySearchChunks raw)[idx]?.map (fun c => c.score) = some 1 ∧
    raw.distances.getD idx 0 = 0 := by
  have hd : raw.distances[idx]? = none := by
    rw [List.getElem?_eq_none h2]
  constructor
  · simp only [similaritySearchChunks, mapFrom_getElem?, Nat.zero_add,
      List.getElem?_eq_getElem h1, Option.map_some']
    simp [List.getD_eq_getElem?_getD, hd, similarityScore]
  · simp [List.getD_eq_getElem?_getD, hd]

/-- Witness for C10: one document, an empty distances list. -/
theorem missing_distance_scores_one_witness :
    (similaritySearchChunks ⟨[some "t"], [], [], none⟩)[0]?.map
        (fun c => c.score) = some 1 ∧
    ([] : List ℚ).getD 0 0 = 0 :=
  missing_distance_scores_one ⟨[some "t"], [], [], none⟩ 0 (by decide)
    (by decide)

/-! ## The composed answer on an empty selection -/

lemma generateAnswer_data_head (q : String) (chunks : List InternalChunk) :
    (generateAnswer q chunks).data.head? = some 'Q' := by
  simp [generateAnswer, answerSections, joinNl, String.data_append,
    List.head?_append]

lemma generateAnswer_ne_noKnowledge (q : String)
    (chunks : List InternalChunk) :
    generateAnswer q chunks ≠ noKnowledgeAnswer := by
  intro h
  have h2 := congrArg (fun s => s.data.head?) h
  simp only [generateAnswer_data_head] at h2
  have h3 : noKnowledgeAnswer.data.head? = some 'I' := rfl
  rw [h3] at h2
  exact absurd h2 (by decide)

lemma sources_suffix (q : String) (chunks : List InternalChunk) :
    ("Sources:" ++ "\n" ++ joinNl (contextSummaryLines chunks)).data <:+
      (generateAnswer q chunks).data := by
  refine ⟨("Question: " ++ q ++ "\n" ++ "" ++ "\n" ++
    "Based on the retrieved knowledge base content, here is a synthesized answer:" ++
    "\n" ++ "" ++ "\n" ++ narrativeParagraph ++ "\n" ++ "" ++ "\n" ++
    citationGuidance ++ "\n" ++ "" ++ "\n").data, ?_⟩
  simp [generateAnswer, answerSections, joinNl, String.data_append,
    List.append_assoc]

lemma similaritySearchChunks_single_irrelevant :
    similaritySearchChunks ⟨[some "irrelevant"], [], [], none⟩ =
      [⟨"0", "irrelevant", 1, []⟩] := by
  simp [similaritySearchChunks, mapFrom, similarityScore, zero_div, sub_zero,
    min_self, max_eq_right zero_le_one, natRepr, natReprChars, digitChar]

/-- C4 counterexample: a provider response with one candidate that the
zero-character budget then eliminates gives an empty selection, yet the
composed answer is the standard template — not the fixed apology — and it
still contains a Sources section ("Sources:" followed by an empty list). -/
theorem composer_empty_selection_not_apology :
    selectChunks ⟨8, 12, 0, 0⟩
        (similaritySearchChunks ⟨[some "irrelevant"], [], [], none⟩) 8 = [] ∧
    answerQuestion ⟨8, 12, 0, 0⟩ ⟨"q", none⟩
        (fun _ => .ok ⟨[some "irrelevant"], [], [], none⟩) =
      .ok ⟨generateAnswer ("q".trim) [], []⟩ ∧
    generateAnswer ("q".trim) [] ≠ noKnowledgeAnswer ∧
    ("Sources:" ++ "\n" ++
        joinNl (contextSummaryLines ([] : List InternalChunk))).data <:+
      (generateAnswer ("q".trim) []).data := by
  have hchunks := similaritySearchChunks_single_irrelevant
  have hsel : selectChunks ⟨8, 12, 0, 0⟩ [⟨"0", "irrelevant", 1, []⟩] 8 = [] := by
    decide
  refine ⟨by rw [hchunks]; exact hsel, ?_,
    generateAnswer_ne_noKnowledge _ _, sources_suffix _ _⟩
  simp [answerQuestion, similaritySearch, hchunks, pyOrNat,
    requestedNResults, hsel, formatSources, mapFrom]

/-- C4 amended: the fixed apology/no-knowledge answer (with no Sources
section) is produced exactly when the provider returns zero candidates; when
candidates exist but score filtering or the character budget eliminates all
of them, the composed answer is the ordinary template answer, which is not
the apology and still contains a (then empty) Sources section. -/
theorem empty_selection_template_not_apology (st : Settings)
    (payload : QueryRequest) (raw : RawQueryResult) :
    (similaritySearchChunks raw = [] →
      answerQuestion st payload (fun _ => .ok raw) =
        .ok ⟨noKnowledgeAnswer, []⟩) ∧
    (selectChunks st (similaritySearchChunks raw)
        (pyOrNat payload.maxSources st.retrievalDefaultTopK) = [] →
      similaritySearchChunks raw ≠ [] →
      answerQuestion st payload (fun _ => .ok raw) =
        .ok ⟨generateAnswer payload.question.trim [], []⟩) ∧
    generateAnswer payload.question.trim [] ≠ noKnowledgeAnswer ∧
    ("Sources:" ++ "\n" ++
        joinNl (contextSummaryLines ([] : List InternalChunk))).data <:+
      (generateAnswer payload.question.trim []).data := by
  refine ⟨?_, ?_, generateAnswer_ne_noKnowledge _ _, sources_suffix _ _⟩
  · intro h
    simp [answerQuestion, similaritySearch, h]
  · intro hsel hne
    simp [answerQuestion, similaritySearch, List.isEmpty_iff, hne,
      requestedNResults, hsel, formatSources, mapFrom]

/-- Witness for C4 amended, at the counterexample input. -/
theorem empty_selection_template_not_apology_witness :
    answerQuestion ⟨8, 12, 0, 0⟩ ⟨"q", none⟩
        (fun _ => .ok ⟨[some "irrelevant"], [], [], none⟩) =
      .ok ⟨generateAnswer ("q".trim) [], []⟩ :=
  (empty_selection_template_not_apology ⟨8, 12, 0, 0⟩ ⟨"q", none⟩
      ⟨[some "irrelevant"], [], [], none⟩).2.1
    (by
      rw [similaritySearchChunks_single_irrelevant]
      decide)
    (by
      rw [similaritySearchChunks_single_irrelevant]
      simp)

/-! ## Decimal rendering and citation-id parsing lemmas -/

lemma digitVal_digitChar {d : ℕ} (h : d < 10) :
    digitVal (digitChar d) = d := by
  interval_cases d <;> rfl

lemma isDigit_digitChar {d : ℕ} (h : d < 10) :
    (digitChar d).isDigit = true := by
  interval_cases d <;> rfl

lemma natReprChars_all_digit (n : ℕ) :
    ∀ ch ∈ natReprChars n, ch.isDigit = true := by
  induction n using Nat.strong_induction_on with
  | _ n ih =>
    rw [natReprChars]
    split
    · next h =>
      intro ch hch
      rw [List.mem_singleton.mp hch]
      exact isDigit_digitChar h
    · next h =>
      intro ch hch
      rcases List.mem_append.mp hch with h1 | h2
      · exact ih (n / 10) (Nat.div_lt_self (by omega) (by omega)) ch h1
      · rw [List.mem_singleton.mp h2]
        exact isDigit_digitChar (Nat.mod_lt _ (by omega))

lemma natReprChars_ne_nil (n : ℕ) : natReprChars n ≠ [] := by
  rw [natReprChars]
  split
  · simp
  · simp

lemma digitsToNat_append_singleton (ds : List Char) (c : Char) :
    digitsToNat (ds ++ [c]) = 10 * digitsToNat ds + digitVal c := by
  simp [digitsToNat, List.foldl_append]

lemma digitsToNat_natReprChars (n : ℕ) :
    digitsToNat (natReprChars n) = n := by
  induction n using Nat.strong_induction_on with
  | _ n ih =>
    rw [natReprChars]
    split
    · next h =>
      simp [digitsToNat, digitVal_digitChar h]
    · next h =>
      rw [digitsToNat_append_singleton,
        ih (n / 10) (Nat.div_lt_self (by omega) (by omega)),
        digitVal_digitChar (Nat.mod_lt _ (by omega))]
      omega

lemma takeWhile_append_of_forall {p : α → Bool} :
    ∀ (xs : List α) {y : α} (ys : List α), (∀ x ∈ xs, p x = true) →
      p y = false → (xs ++ y :: ys).takeWhile p = xs
  | [], y, ys, _, hy => by simp [List.takeWhile_cons, hy]
  | x :: xs, y, ys, hall, hy => by
    simp only [List.cons_append, List.takeWhile_cons,
      hall x (List.mem_cons_self x xs), if_true]
    rw [takeWhile_append_of_forall xs ys
      (fun a ha => hall a (List.mem_cons_of_mem _ ha)) hy]

lemma dropWhile_append_of_forall {p : α → Bool} :
    ∀ (xs : List α) {y : α} (ys : List α), (∀ x ∈ xs, p x = true) →
      p y = false → (xs ++ y :: ys).dropWhile p = y :: ys
  | [], y, ys, _, hy => by simp [List.dropWhile_cons, hy]
  | x :: xs, y, ys, hall, hy => by
    simp only [List.cons_append, List.dropWhile_cons,
      hall x (List.mem_cons_self x xs), if_true]
    exact dropWhile_append_of_forall xs ys
      (fun a ha => hall a (List.mem_cons_of_mem _ ha)) hy

lemma lineCitationId_of_data (line : String) (i : ℕ) (t : List Char)
    (h : line.data = '[' :: (natReprChars i ++ (']' :: t))) :
    lineCitationId line = some i := by
  simp only [lineCitationId, h]
  rw [takeWhile_append_of_forall _ _ (natReprChars_all_digit i) (by decide),
    dropWhile_append_of_forall _ _ (natReprChars_all_digit i) (by decide)]
  have hne : (natReprChars i).isEmpty = false := by
    cases hn : natReprChars i with
    | nil => exact absurd hn (natReprChars_ne_nil i)
    | cons a l => rfl
  simp [hne, digitsToNat_natReprChars]

lemma lineCitationId_contextSummaryLine (i : ℕ) (c : InternalChunk) :
    lineCitationId (contextSummaryLine i c) = some i := by
  rw [contextSummaryLine]
  by_cases h : truthy (sourceNameOf c)
  · rw [if_pos h]
    exact lineCitationId_of_data _ i
      ((" (" ++ (sourceNameOf c).getD "" ++ ")" ++ " " ++
        shorten (c.text.replace "\n" " ") 260).data)
      (by simp [natRepr, String.data_append, List.append_assoc])
  · rw [if_neg h]
    exact lineCitationId_of_data _ i
      ((" " ++ shorten (c.text.replace "\n" " ") 260).data)
      (by simp [natRepr, String.data_append, List.append_assoc])

/-! ## Indexed-map lemmas -/

lemma mapFrom_map (g : β → γ) (f : ℕ → α → β) :
    ∀ (i : ℕ) (l : List α),
      (mapFrom f i l).map g = mapFrom (fun j a => g (f j a)) i l
  | _, [] => rfl
  | i, a :: l => by
    simp only [mapFrom, List.map_cons, mapFrom_map g f (i + 1) l]

lemma mapFrom_congr {f g : ℕ → α → β} (h : ∀ j a, f j a = g j a) :
    ∀ (i : ℕ) (l : List α), mapFrom f i l = mapFrom g i l
  | _, [] => rfl
  | i, a :: l => by
    simp only [mapFrom, h i a, mapFrom_congr h (i + 1) l]

lemma mapFrom_index : ∀ (i : ℕ) (l : List α),
    mapFrom (fun j _ => j) i l = List.range' i l.length
  | _, [] => rfl
  | i, a :: l => by
    simp only [mapFrom, List.length_cons, List.range'_succ,
      mapFrom_index (i + 1) l]

/-- C2: the structured source list carries citation ids exactly `1..N` in
order (no gaps, no repeats), each equal to its rank; the Sources-section
lines of the composed answer print, in order, exactly those citation ids
(each line leading with one bracketed id); and the composed answer ends with
the Sources section. -/
theorem citation_ids_contiguous_and_consistent
    (chunks : List InternalChunk) (question : String) (_h : chunks ≠ []) :
    (formatSources chunks).map (fun s => s.citationId) =
      List.range' 1 chunks.length ∧
    (formatSources chunks).map (fun s => s.rank) =
      (formatSources chunks).map (fun s => s.citationId) ∧
    (contextSummaryLines chunks).map lineCitationId =
      (formatSources chunks).map (fun s => some s.citationId) ∧
    ("Sources:" ++ "\n" ++ joinNl (contextSummaryLines chunks)).data <:+
      (generateAnswer question chunks).data := by
  refine ⟨?_, ?_, ?_, sources_suffix question chunks⟩
  · rw [formatSources, mapFrom_map]
    exact mapFrom_index 1 chunks
  · rw [formatSources, mapFrom_map, mapFrom_map]
  · rw [contextSummaryLines, formatSources, mapFrom_map, mapFrom_map]
    exact mapFrom_congr
      (fun j a => by rw [lineCitationId_contextSummaryLine]) 1 chunks

/-- Witness for C2 at a concrete two-chunk selection. -/
theorem citation_ids_contiguous_and_consistent_witness :
    (formatSources [⟨"a", "x", 1, []⟩, ⟨"b", "y", 1, []⟩]).map
        (fun s => s.citationId) =
      List.range' 1 ([⟨"a", "x", 1, []⟩, ⟨"b", "y", (1 : ℚ), []⟩] :
        List InternalChunk).length ∧
    (formatSources [⟨"a", "x", 1, []⟩, ⟨"b", "y", 1, []⟩]).map
        (fun s => s.rank) =
      (formatSources [⟨"a", "x", 1, []⟩, ⟨"b", "y", 1, []⟩]).map
        (fun s => s.citationId) ∧
    (contextSummaryLines [⟨"a", "x", 1, []⟩, ⟨"b", "y", 1, []⟩]).map
        lineCitationId =
      (formatSources [⟨"a", "x", 1, []⟩, ⟨"b", "y", 1, []⟩]).map
        (fun s => some s.citationId) ∧
    ("Sources:" ++ "\n" ++
        joinNl (contextSummaryLines
          [⟨"a", "x", 1, []⟩, ⟨"b", "y", 1, []⟩])).data <:+
      (generateAnswer "What is RAG?"
        [⟨"a", "x", 1, []⟩, ⟨"b", "y", 1, []⟩]).data :=
  citation_ids_contiguous_and_consistent
    [⟨"a", "x", 1, []⟩, ⟨"b", "y", 1, []⟩] "What is RAG?" (by simp)

end Rag
